import Mathlib

/-!
# Students API: storage adapter and request handlers

A shallow embedding of `internal/storage/sqlite/sqlite.go` and
`internal/http/handlers/student/student.go`.

* Go's `(value, error)` results are pairs `value × Option Error` (`none` is a nil error).
* `int64` ids and `int` ages are `Int`; the adapter performs no arithmetic on them, the one
  place where the 64-bit range matters is the rowid allocation of the table, modelled in
  `Store.insert`.
* `*sql.DB` is a `Driver σ`: a record of what `Prepare`, `Exec`, `QueryRow(..).Scan(..)` and
  `Query` + `rows.Scan` do on a database state `σ`.  `sqlite3` is the single-client model of the
  `students` table; `interleaved` is the same table with a second client writing between
  statements.
-/

set_option linter.dupNamespace false

namespace StudentsApi

/-! ## Go errors -/

/-- Go `error` values that occur in the adapter and the handlers. -/
inductive Error where
  /-- The sentinel `sql.ErrNoRows`. -/
  | ErrNoRows
  /-- The sentinel `io.EOF`. -/
  | EOF
  /-- An error carrying only a message (`errors.New`, `fmt.Errorf` without `%w`, driver errors). -/
  | errorString (msg : String)
  /-- The result of `fmt.Errorf` with one `%w` verb: the formatted message and the wrapped error. -/
  | wrapError (msg : String) (err : Error)
  deriving DecidableEq, Repr

/-- The method `Error()` of a Go error: its message. -/
def Error.Error : Error → String
  | .ErrNoRows => "sql: no rows in result set"
  | .EOF => "EOF"
  | .errorString msg => msg
  | .wrapError msg _ => msg

/-- Go `errors.Is(err, target)` for the error shapes above. -/
def errorsIs : Error → Error → Bool
  | .wrapError msg inner, target =>
      decide (Error.wrapError msg inner = target) || errorsIs inner target
  | err, target => decide (err = target)

/-- Go `fmt.Sprint(id)` and the verb `%d` for an `int64`: the decimal numeral. -/
def Sprint (id : Int) : String := toString id

/-! ## Data model -/

/-- Modelled from the spec: `types.Student` (package `internal/types` is not part of the
sources at hand).  The spec gives the shape `{"id": int64, "name": string, "email": string,
"age": int}`; the field names are the ones the adapter and the handlers use. -/
structure Student where
  Id : Int
  Name : String
  Email : String
  Age : Int
  deriving DecidableEq, Repr

/-- Go `types.Student{}`: the zero value. -/
def Student.zero : Student := ⟨0, "", "", 0⟩

/-- An argument bound to a `?` placeholder (`interface{}` holding a string or an integer). -/
inductive Value where
  | int (n : Int)
  | text (s : String)
  deriving DecidableEq, Repr

/-- Go `sql.Result`: what `LastInsertId()` and `RowsAffected()` return. -/
structure Result where
  LastInsertId : Int × Option Error
  RowsAffected : Int × Option Error

/-- The part of `database/sql` the adapter uses, over a database state `σ`.

* `Prepare query` yields a statement handle or an error;
* `Exec stmt args` runs a write statement: result or error, and the next state;
* `QueryRow stmt args` is `stmt.QueryRow(args...).Scan(&Id, &Name, &Email, &Age)`: the scanned
  row or the error of `Scan`;
* `Query stmt` is `stmt.Query()`: an error, or the rows the cursor yields, each with the
  outcome of its `rows.Scan(&Id, &Name, &Email, &Age)`. -/
structure Driver (σ : Type) where
  Stmt : Type
  Prepare : String → σ → Except Error Stmt
  Exec : Stmt → List Value → σ → Except Error Result × σ
  QueryRow : Stmt → List Value → σ → Except Error Student
  Query : Stmt → σ → Except Error (List (Except Error Student))

/-! ## The `students` table -/

/-- The non-key columns of `students`. -/
inductive Column where
  | name
  | email
  | age
  deriving DecidableEq, Repr

/-- The statements over `students` that the single-client model compiles. -/
inductive Statement where
  | insert
  | selectById
  | selectAll
  | update (cols : List Column)
  | deleteById
  deriving DecidableEq, Repr

/-- Remove the leading characters `p` from `s`, if `s` starts with them. -/
def dropLeading : List Char → List Char → Option (List Char)
  | [], s => some s
  | _ :: _, [] => none
  | p :: ps, c :: cs => if p = c then dropLeading ps cs else none

/-- Remove the trailing characters `p` from `s`, if `s` ends with them. -/
def dropTrailing (p s : List Char) : Option (List Char) :=
  (dropLeading p.reverse s.reverse).map List.reverse

/-- Split at every occurrence of the separator `", "`. -/
def splitComma : List Char → List (List Char)
  | [] => [[]]
  | ',' :: ' ' :: rest => [] :: splitComma rest
  | c :: rest =>
    match splitComma rest with
    | [] => [[c]]
    | h :: t => (c :: h) :: t

/-- One assignment of a `SET` clause. -/
def parseAssignment (s : List Char) : Option Column :=
  if s = "name = ?".toList then some .name
  else if s = "email = ?".toList then some .email
  else if s = "age = ?".toList then some .age
  else none

/-- All assignments of a `SET` clause, in order. -/
def parseAssignments : List (List Char) → Option (List Column)
  | [] => some []
  | a :: rest =>
    match parseAssignment a, parseAssignments rest with
    | some c, some cs => some (c :: cs)
    | _, _ => none

/-- Compile a statement text. -/
def parseStatement (query : String) : Option Statement :=
  if query = "INSERT INTO students (name, email, age) VALUES (?, ?, ?)" then some .insert
  else if query = "SELECT id, name, email, age FROM students WHERE id = ?" then some .selectById
  else if query = "SELECT id, name, email, age FROM students" then some .selectAll
  else if query = "DELETE FROM students WHERE id = ?" then some .deleteById
  else
    match dropLeading "UPDATE students SET ".toList query.toList with
    | none => none
    | some rest =>
      match dropTrailing " WHERE id = ?".toList rest with
      | none => none
      | some set => (parseAssignments (splitComma set)).map Statement.update

/-! ### Single-client model of the table -/

/-- Largest value of a signed 64-bit rowid. -/
def maxInt64 : Int := 9223372036854775807

/-- State of the `students` table, as created by `New`:
`id INTEGER PRIMARY KEY AUTOINCREMENT, name TEXT, email TEXT, age INTEGER`.
`rows` are the rows in scan order; `seq` is the table's entry in `sqlite_sequence`, the largest
rowid `AUTOINCREMENT` has handed out so far. -/
structure Store where
  rows : List Student
  seq : Int
  deriving DecidableEq, Repr

/-- The table right after `New` ran `CREATE TABLE IF NOT EXISTS` on a fresh file. -/
def Store.empty : Store := ⟨[], 0⟩

/-- The largest rowid that has ever existed in the table: the maximum of `seq` and of the ids
present. -/
def Store.maxRowid (db : Store) : Int :=
  db.rows.foldr (fun r m => max r.Id m) db.seq

/-- The row `SELECT ... WHERE id = ?` yields: the first row with that id. -/
def Store.lookup (db : Store) (id : Int) : Option Student :=
  db.rows.find? (fun r => decide (r.Id = id))

/-- Number of rows with the given id. -/
def Store.count (db : Store) (id : Int) : Int :=
  ((db.rows.filter (fun r => decide (r.Id = id))).length : Int)

/-- The error of `Exec`, `QueryRow` or `Query` on arguments that do not fit the statement. -/
def badArguments : Error := .errorString "sql: arguments do not match the statement"

/-- `INSERT INTO students (name, email, age) VALUES (?, ?, ?)` under `AUTOINCREMENT`: the new
rowid is one more than the largest rowid that ever existed; when that one is already the largest
64-bit integer the insert fails (SQLITE_FULL). -/
def Store.insert (name email : String) (age : Int) (db : Store) : Except Error Result × Store :=
  if maxInt64 ≤ db.maxRowid then
    (.error (.errorString "database or disk is full"), db)
  else
    (.ok ⟨(db.maxRowid + 1, none), (1, none)⟩,
      ⟨db.rows ++ [⟨db.maxRowid + 1, name, email, age⟩], db.maxRowid + 1⟩)

/-- One `column = ?` with its bound value; `none` when the value has the wrong type. -/
def assign : Column → Value → Option (Student → Student)
  | .name, .text v => some fun r => { r with Name := v }
  | .email, .text v => some fun r => { r with Email := v }
  | .age, .int v => some fun r => { r with Age := v }
  | _, _ => none

/-- Bind the arguments of an `UPDATE`: one value per assignment, in order, then the id of the
`WHERE` clause.  The result is the change made to a matching row and that id. -/
def bindUpdate : List Column → List Value → Option ((Student → Student) × Int)
  | [], [.int id] => some (fun r => r, id)
  | c :: cs, v :: vs =>
    match assign c v, bindUpdate cs vs with
    | some f, some (g, id) => some (fun r => g (f r), id)
    | _, _ => none
  | _, _ => none

/-- `UPDATE students SET ... WHERE id = ?`. -/
def Store.update (cols : List Column) (args : List Value) (db : Store) :
    Except Error Result × Store :=
  match bindUpdate cols args with
  | none => (.error badArguments, db)
  | some (f, id) =>
    (.ok ⟨(db.seq, none), (db.count id, none)⟩,
      { db with rows := db.rows.map fun r => if r.Id = id then f r else r })

/-- `DELETE FROM students WHERE id = ?`. -/
def Store.delete (id : Int) (db : Store) : Except Error Result × Store :=
  (.ok ⟨(db.seq, none), (db.count id, none)⟩,
    { db with rows := db.rows.filter fun r => decide (r.Id ≠ id) })

/-- The `students` table behind `database/sql`, with one client and no I/O faults.  After
`UPDATE` and `DELETE` the field `LastInsertId` is not meaningful (the adapter does not read
it). -/
def sqlite3 : Driver Store where
  Stmt := Statement
  Prepare query _ :=
    match parseStatement query with
    | some stmt => .ok stmt
    | none => .error (.errorString ("near \"" ++ query ++ "\": syntax error"))
  Exec stmt args db :=
    match stmt, args with
    | .insert, [.text name, .text email, .int age] => db.insert name email age
    | .update cols, args => db.update cols args
    | .deleteById, [.int id] => db.delete id
    | _, _ => (.error badArguments, db)
  QueryRow stmt args db :=
    match stmt, args with
    | .selectById, [.int id] =>
      match db.lookup id with
      | some r => .ok r
      | none => .error .ErrNoRows
    | _, _ => .error badArguments
  Query stmt db :=
    match stmt with
    | .selectAll => .ok (db.rows.map .ok)
    | _ => .error badArguments

/-- The table with a second client: `env` is what the other client commits just before each
write statement of this client reaches the table. -/
def interleaved (env : Store → Store) : Driver Store :=
  { sqlite3 with Exec := fun stmt args db => sqlite3.Exec stmt args (env db) }

/-! ## The storage adapter (`internal/storage/sqlite/sqlite.go`) -/

/-- Go `type Sqlite struct { Db *sql.DB }`. -/
structure Sqlite (σ : Type) where
  Db : Driver σ

/-- Go `func (s *Sqlite) CreateStudent(name string, email string, age int) (int64, error)`. -/
def Sqlite.CreateStudent {σ : Type} (s : Sqlite σ) (name email : String) (age : Int) (db : σ) :
    (Int × Option Error) × σ :=
  match s.Db.Prepare "INSERT INTO students (name, email, age) VALUES (?, ?, ?)" db with
  | .error err => ((0, some err), db)
  | .ok stmt =>
    match s.Db.Exec stmt [.text name, .text email, .int age] db with
    | (.error err, db1) => ((0, some err), db1)
    | (.ok result, db1) =>
      match result.LastInsertId with
      | (_, some err) => ((0, some err), db1)
      | (lastId, none) => ((lastId, none), db1)

/-- Go `func (s *Sqlite) GetStudentById(id int64) (types.Student, error)`. -/
def Sqlite.GetStudentById {σ : Type} (s : Sqlite σ) (id : Int) (db : σ) :
    Student × Option Error :=
  match s.Db.Prepare "SELECT id, name, email, age FROM students WHERE id = ?" db with
  | .error err => (Student.zero, some err)
  | .ok stmt =>
    match s.Db.QueryRow stmt [.int id] db with
    | .error err =>
      if err = Error.ErrNoRows then
        (Student.zero, some (.errorString ("no student found with id " ++ Sprint id)))
      else
        (Student.zero, some (.wrapError ("query error: " ++ err.Error) err))
    | .ok student => (student, none)

/-- The loop `for rows.Next() { ... }` of `GetAllStudents`: `students` is the slice built so
far, the list holds the outcome of `rows.Scan` for each remaining row. -/
def scanRows : List (Except Error Student) → List Student → List Student × Option Error
  | [], students => (students, none)
  | .error err :: _, _ => ([], some err)
  | .ok student :: rest, students => scanRows rest (students ++ [student])

/-- Go `func (s *Sqlite) GetAllStudents() ([]types.Student, error)`; a nil slice is `[]`. -/
def Sqlite.GetAllStudents {σ : Type} (s : Sqlite σ) (db : σ) : List Student × Option Error :=
  match s.Db.Prepare "SELECT id, name, email, age FROM students" db with
  | .error err => ([], some err)
  | .ok stmt =>
    match s.Db.Query stmt db with
    | .error err => ([], some err)
    | .ok rows => scanRows rows []

/-- Step 2 of `ModifyStudentById`: the `SET` clause and its arguments, built from the three
`if` statements in order. -/
def setClauseAndArgs (modifyStudent : Student) : List String × List Value :=
  let setClause : List String := []
  let args : List Value := []
  let (setClause, args) :=
    if modifyStudent.Name ≠ "" then
      (setClause ++ ["name = ?"], args ++ [Value.text modifyStudent.Name])
    else (setClause, args)
  let (setClause, args) :=
    if modifyStudent.Email ≠ "" then
      (setClause ++ ["email = ?"], args ++ [Value.text modifyStudent.Email])
    else (setClause, args)
  let (setClause, args) :=
    if modifyStudent.Age ≠ 0 then
      (setClause ++ ["age = ?"], args ++ [Value.int modifyStudent.Age])
    else (setClause, args)
  (setClause, args)

/-- Step 3 of `ModifyStudentById`: the query text
`fmt.Sprintf("UPDATE students SET %s WHERE id = ?", strings.Join(setClause, ", "))` and the
arguments with `id` appended. -/
def updateStatement (id : Int) (modifyStudent : Student) : String × List Value :=
  let (setClause, args) := setClauseAndArgs modifyStudent
  let query := "UPDATE students SET " ++ ", ".intercalate setClause ++ " WHERE id = ?"
  let args := args ++ [Value.int id]
  (query, args)

/-- Go `func (s *Sqlite) ModifyStudentById(id int64, modifyStudent types.Student)
(types.Student, error)`. -/
def Sqlite.ModifyStudentById {σ : Type} (s : Sqlite σ) (id : Int) (modifyStudent : Student)
    (db : σ) : (Student × Option Error) × σ :=
  match s.GetStudentById id db with
  | (_, some err) => ((Student.zero, some err), db)
  | (currentStudent, none) =>
    if (setClauseAndArgs modifyStudent).1.length = 0 then
      ((currentStudent, none), db)
    else
      match s.Db.Prepare (updateStatement id modifyStudent).1 db with
      | .error err => ((Student.zero, some err), db)
      | .ok stmt =>
        match s.Db.Exec stmt (updateStatement id modifyStudent).2 db with
        | (.error err, db1) => ((Student.zero, some err), db1)
        | (.ok res, db1) =>
          match res.RowsAffected with
          | (_, some err) => ((Student.zero, some err), db1)
          | (rowsAffected, none) =>
            if rowsAffected = 0 then
              ((Student.zero, some (.errorString ("no student found with id: " ++ Sprint id))),
                db1)
            else
              (s.GetStudentById id db1, db1)

/-- Go `func (s *Sqlite) DeleteStudentById(id int64) (types.Student, error)`. -/
def Sqlite.DeleteStudentById {σ : Type} (s : Sqlite σ) (id : Int) (db : σ) :
    (Student × Option Error) × σ :=
  match s.GetStudentById id db with
  | (_, some err) => ((Student.zero, some err), db)
  | (currentStudent, none) =>
    match s.Db.Prepare "DELETE FROM students WHERE id = ?" db with
    | .error err => ((Student.zero, some err), db)
    | .ok stmt =>
      match s.Db.Exec stmt [.int id] db with
      | (.error err, db1) => ((Student.zero, some err), db1)
      | (.ok res, db1) =>
        match res.RowsAffected with
        | (_, some err) => ((Student.zero, some err), db1)
        | (rowsAffected, none) =>
          if rowsAffected = 0 then
            ((Student.zero, some (.errorString ("no student found with id: " ++ Sprint id))),
              db1)
          else
            ((currentStudent, none), db1)

/-- Go `storage.Storage` (`internal/storage/storage.go`): the interface the handlers call,
over a state `σ` that every method may read and change. -/
structure Storage (σ : Type) where
  CreateStudent : String → String → Int → σ → (Int × Option Error) × σ
  GetStudentById : Int → σ → (Student × Option Error) × σ
  GetAllStudents : σ → (List Student × Option Error) × σ
  ModifyStudentById : Int → Student → σ → (Student × Option Error) × σ
  DeleteStudentById : Int → σ → (Student × Option Error) × σ

/-- The adapter `*Sqlite` as a `storage.Storage`, the way `main` passes it to the handlers. -/
def Sqlite.toStorage {σ : Type} (s : Sqlite σ) : Storage σ where
  CreateStudent := s.CreateStudent
  GetStudentById id db := (s.GetStudentById id db, db)
  GetAllStudents db := (s.GetAllStudents db, db)
  ModifyStudentById := s.ModifyStudentById
  DeleteStudentById := s.DeleteStudentById

/-! ## Response envelope (`internal/utils/response`) -/

/-- Modelled from the spec: `response.Response`, the error envelope
`{"status": "Error", "error": <message>}` (package `internal/utils/response` is not part of
the sources at hand). -/
structure Response where
  Status : String
  Error : String
  deriving DecidableEq, Repr

/-- Modelled from the spec: `response.GeneralError(err)`, the error envelope that wraps the
message of `err`. -/
def GeneralError (err : Error) : Response := ⟨"Error", err.Error⟩

/-- The values the handlers pass as `data` to `response.WriteJson`. -/
inductive Payload where
  /-- A `response.Response` envelope. -/
  | response (r : Response)
  /-- A Go `error` value passed as it is. -/
  | error (err : Error)
  /-- The map `map[string]int64{"id": lastId}`. -/
  | id (lastId : Int)
  /-- A `types.Student`. -/
  | student (s : Student)
  /-- A `[]types.Student`. -/
  | students (l : List Student)
  /-- The map `map[string]string{"status": status}`. -/
  | status (status : String)
  deriving DecidableEq, Repr

/-- What a handler wrote to its `http.ResponseWriter`: the status code and the value given to
the JSON encoder. -/
structure Written where
  status : Nat
  data : Payload
  deriving DecidableEq, Repr

/-- Modelled from the spec: `response.WriteJson(w, status, data)` writes the status code and
`data` as the JSON body. -/
def WriteJson (status : Nat) (data : Payload) : Written := ⟨status, data⟩

/-- Go `http.StatusOK`. -/
def StatusOK : Nat := 200
/-- Go `http.StatusCreated`. -/
def StatusCreated : Nat := 201
/-- Go `http.StatusBadRequest`. -/
def StatusBadRequest : Nat := 400
/-- Go `http.StatusInternalServerError`. -/
def StatusInternalServerError : Nat := 500

/-! ## Request handlers (`internal/http/handlers/student/student.go`) -/

/-- What a handler reads from `*http.Request`: the path value `id`, and the outcome of
`json.NewDecoder(r.Body).Decode(&student)` (the variable after the call, and the error). -/
structure Request where
  PathValue : String
  Decode : Student × Option Error

/-- The validation collaborators of the create handler.  `Struct` is `validator.New().Struct`
on a `types.Student` (`none` is a nil error; the rules are the struct tags of `types.Student`),
`ValidationError` is `response.ValidationError`; neither is part of the sources at hand. -/
structure Validation where
  Errors : Type
  Struct : Student → Option Errors
  ValidationError : Errors → Response

/-- Value of a non-empty string of decimal digits. -/
def digitsValue : List Char → Nat → Option Nat
  | [], _ => none
  | [c], acc => if c.isDigit then some (acc * 10 + (c.toNat - 48)) else none
  | c :: d :: rest, acc =>
    if c.isDigit then digitsValue (d :: rest) (acc * 10 + (c.toNat - 48)) else none

/-- Go `*strconv.NumError` of `ParseInt`; `reason` is `strconv.ErrSyntax` or
`strconv.ErrRange`.  Go quotes the input with `strconv.Quote`, which also escapes unusual
characters; here the input stands between plain double quotes. -/
def numError (s : String) (reason : String) : Error :=
  .wrapError ("strconv.ParseInt: parsing \"" ++ s ++ "\": " ++ reason) (.errorString reason)

/-- Go `strconv.ParseInt(s, 10, 64)`: an optional sign, then decimal digits; values outside
the `int64` range are clamped and reported as range errors. -/
def ParseInt (s : String) : Int × Option Error :=
  let (neg, digits) : Bool × List Char :=
    match s.toList with
    | '-' :: rest => (true, rest)
    | '+' :: rest => (false, rest)
    | rest => (false, rest)
  match digitsValue digits 0 with
  | none => (0, some (numError s "invalid syntax"))
  | some n =>
    if neg then
      if (maxInt64 + 1 : Int) < n then (-(maxInt64 + 1), some (numError s "value out of range"))
      else (-(n : Int), none)
    else
      if maxInt64 < (n : Int) then (maxInt64, some (numError s "value out of range"))
      else ((n : Int), none)

namespace handlers

/-- Go `func New(storage storage.Storage) http.HandlerFunc`: the create handler. -/
def New {σ : Type} (storage : Storage σ) (validate : Validation) (r : Request) (db : σ) :
    Written × σ :=
  match r.Decode with
  | (_, some err) =>
    if errorsIs err Error.EOF then
      (WriteJson StatusBadRequest (.response (GeneralError (.errorString "empty body"))), db)
    else
      (WriteJson StatusBadRequest (.response (GeneralError err)), db)
  | (student, none) =>
    match validate.Struct student with
    | some validateErr =>
      (WriteJson StatusBadRequest (.response (validate.ValidationError validateErr)), db)
    | none =>
      match storage.CreateStudent student.Name student.Email student.Age db with
      | ((_, some err), db1) => (WriteJson StatusInternalServerError (.error err), db1)
      | ((lastId, none), db1) => (WriteJson StatusCreated (.id lastId), db1)

/-- Go `func GetById(storage storage.Storage) http.HandlerFunc`: the read handler. -/
def GetById {σ : Type} (storage : Storage σ) (r : Request) (db : σ) : Written × σ :=
  match ParseInt r.PathValue with
  | (_, some err) => (WriteJson StatusBadRequest (.response (GeneralError err)), db)
  | (intId, none) =>
    match storage.GetStudentById intId db with
    | ((_, some err), db1) =>
      (WriteJson StatusInternalServerError (.response (GeneralError err)), db1)
    | ((student, none), db1) => (WriteJson StatusOK (.student student), db1)

/-- Go `func GetStudentLists(storage storage.Storage) http.HandlerFunc`: the list handler. -/
def GetStudentLists {σ : Type} (storage : Storage σ) (_r : Request) (db : σ) : Written × σ :=
  match storage.GetAllStudents db with
  | ((_, some err), db1) => (WriteJson StatusInternalServerError (.error err), db1)
  | ((students, none), db1) => (WriteJson StatusOK (.students students), db1)

/-- Go `func ModifyById(storage storage.Storage) http.HandlerFunc`: the update handler. -/
def ModifyById {σ : Type} (storage : Storage σ) (r : Request) (db : σ) : Written × σ :=
  match ParseInt r.PathValue with
  | (_, some err) => (WriteJson StatusBadRequest (.error err), db)
  | (intId, none) =>
    match r.Decode with
    | (_, some err) =>
      if errorsIs err Error.EOF then
        (WriteJson StatusBadRequest (.response (GeneralError (.errorString "empty body"))), db)
      else
        (WriteJson StatusBadRequest (.response (GeneralError err)), db)
    | (modifyStudent, none) =>
      match storage.ModifyStudentById intId modifyStudent db with
      | ((_, some err), db1) => (WriteJson StatusInternalServerError (.error err), db1)
      | ((updatedStudent, none), db1) => (WriteJson StatusOK (.student updatedStudent), db1)

/-- Go `func DeleteById(storage storage.Storage) http.HandlerFunc`: the delete handler. -/
def DeleteById {σ : Type} (storage : Storage σ) (r : Request) (db : σ) : Written × σ :=
  match ParseInt r.PathValue with
  | (_, some err) => (WriteJson StatusBadRequest (.error err), db)
  | (intId, none) =>
    match storage.DeleteStudentById intId db with
    | ((_, some err), db1) => (WriteJson StatusInternalServerError (.error err), db1)
    | ((_, none), db1) => (WriteJson StatusOK (.status "success"), db1)

end handlers

/-! ## Auxiliary definitions for the statements below -/

/-- The adapter `New` returns, over the single-client table. -/
abbrev sqliteAdapter : Sqlite Store := ⟨sqlite3⟩

/-- The `PRIMARY KEY` constraint on `id`: no two rows share an id. -/
def Store.PrimaryKey (db : Store) : Prop := (db.rows.map (fun r => r.Id)).Nodup

/-- The primary-key constraint can be checked row by row. -/
instance Store.decidablePrimaryKey (db : Store) : Decidable db.PrimaryKey :=
  inferInstanceAs (Decidable (List.Nodup (db.rows.map (fun r : Student => r.Id))))

/-- The error `GetStudentById` returns when no row matches. -/
def notFound (id : Int) : Error := .errorString ("no student found with id " ++ Sprint id)

/-- A driver that keeps a journal of the write statements executed through it: the text given
to `Prepare` and the arguments given to `Exec`, in order of execution. -/
def journaled {σ : Type} (d : Driver σ) : Driver (σ × List (String × List Value)) where
  Stmt := String × d.Stmt
  Prepare query st :=
    match d.Prepare query st.1 with
    | .error err => .error err
    | .ok stmt => .ok (query, stmt)
  Exec stmt args st :=
    ((d.Exec stmt.2 args st.1).1, ((d.Exec stmt.2 args st.1).2, st.2 ++ [(stmt.1, args)]))
  QueryRow stmt args st := d.QueryRow stmt.2 args st.1
  Query stmt st := d.Query stmt.2 st.1

/-- What the partial-update rule of the spec makes of a stored row `r` under a patch `p`: each
of name, email and age is the patch value when that is non-empty / non-zero and the stored
value otherwise; the id stays. -/
def Student.patched (r p : Student) : Student :=
  ⟨r.Id, if p.Name ≠ "" then p.Name else r.Name, if p.Email ≠ "" then p.Email else r.Email,
    if p.Age ≠ 0 then p.Age else r.Age⟩

/-- The columns a patch sets, in the order name, email, age. -/
def patchColumns (p : Student) : List Column :=
  (if p.Name ≠ "" then [Column.name] else []) ++ (if p.Email ≠ "" then [Column.email] else []) ++
    (if p.Age ≠ 0 then [Column.age] else [])

/-- Example row. -/
def ann : Student := ⟨1, "Ann", "ann@x.com", 21⟩

/-- Example row. -/
def bob : Student := ⟨2, "Bob", "bob@x.com", 30⟩

/-- Example store: two rows, created in this order. -/
def twoStudents : Store := ⟨[ann, bob], 2⟩

/-- A write operation of the adapter, as a client issues it. -/
inductive Op where
  | create (name email : String) (age : Int)
  | modify (id : Int) (patch : Student)
  | delete (id : Int)

/-- The store after one operation of the adapter on the single-client table. -/
def Op.run (op : Op) (db : Store) : Store :=
  match op with
  | .create name email age => (sqliteAdapter.CreateStudent name email age db).2
  | .modify id patch => (sqliteAdapter.ModifyStudentById id patch db).2
  | .delete id => (sqliteAdapter.DeleteStudentById id db).2

/-- The store after a sequence of operations, first to last. -/
def runOps (ops : List Op) (db : Store) : Store := ops.foldl (fun st op => op.run st) db

/-- Another client deleting the student with id `1`. -/
def deleteAnn (db : Store) : Store := (db.delete 1).2

/-- A database that cannot be reached: every call fails with `err`. -/
def failing (err : Error) : Driver Unit where
  Stmt := Unit
  Prepare _ _ := .error err
  Exec _ _ st := (.error err, st)
  QueryRow _ _ _ := .error err
  Query _ _ := .error err

/-- The error of an unreachable database file. -/
def cannotOpen : Error := .errorString "unable to open database file"

/-- A validation that accepts every payload. -/
def acceptAll : Validation where
  Errors := Unit
  Struct _ := none
  ValidationError _ := ⟨"Error", ""⟩

/-! ## Lemmas on the single-client table -/

/-- The text built for a non-empty patch compiles to an update of the patch columns. -/
theorem prepare_updateStatement (i : Int) (p : Student) (db : Store)
    (hne : p.Name ≠ "" ∨ p.Email ≠ "" ∨ p.Age ≠ 0) :
    sqlite3.Prepare (updateStatement i p).1 db = .ok (Statement.update (patchColumns p)) := by
  by_cases h1 : p.Name = "" <;> by_cases h2 : p.Email = "" <;> by_cases h3 : p.Age = 0 <;>
    simp [updateStatement, setClauseAndArgs, patchColumns, h1, h2, h3] at hne ⊢ <;> rfl

/-- Executing that update patches the rows of the given id. -/
theorem exec_updateStatement (i : Int) (p : Student) (db : Store) :
    sqlite3.Exec (Statement.update (patchColumns p)) (updateStatement i p).2 db =
      (.ok ⟨(db.seq, none), (db.count i, none)⟩,
        ⟨db.rows.map (fun r => if r.Id = i then r.patched p else r), db.seq⟩) := by
  by_cases h1 : p.Name = "" <;> by_cases h2 : p.Email = "" <;> by_cases h3 : p.Age = 0 <;>
    simp [updateStatement, setClauseAndArgs, patchColumns, h1, h2, h3, sqlite3, Store.update,
      bindUpdate, assign, Student.patched]

/-- What `GetStudentById` does on the single-client table. -/
theorem getStudentById_sqlite3 (i : Int) (db : Store) :
    sqliteAdapter.GetStudentById i db =
      match db.lookup i with
      | some r => (r, none)
      | none => (Student.zero, some (notFound i)) := by
  have hp : sqlite3.Prepare "SELECT id, name, email, age FROM students WHERE id = ?" db =
      .ok Statement.selectById := rfl
  unfold Sqlite.GetStudentById
  simp only [hp]
  cases h : db.lookup i <;> simp [sqlite3, h, notFound]

theorem lookup_of_mem {db : Store} {s : Student} (hpk : db.PrimaryKey) (hs : s ∈ db.rows) :
    db.lookup s.Id = some s := by
  obtain ⟨rows, seq⟩ := db
  simp only [Store.PrimaryKey, Store.lookup] at *
  induction rows with
  | nil => simp at hs
  | cons r rest ih =>
    simp only [List.map_cons, List.nodup_cons, List.mem_map, not_exists, not_and] at hpk
    rcases List.mem_cons.mp hs with h | h
    · subst h; simp
    · have hne : r.Id ≠ s.Id := fun e => hpk.1 s h e.symm
      simp [List.find?_cons, hne, ih hpk.2 h]

theorem lookup_eq_none {db : Store} {i : Int} (h : ∀ r ∈ db.rows, r.Id ≠ i) :
    db.lookup i = none := by
  simp only [Store.lookup, List.find?_eq_none]
  intro r hr; simpa using h r hr

theorem mem_of_lookup {db : Store} {i : Int} {s : Student} (h : db.lookup i = some s) :
    s ∈ db.rows ∧ s.Id = i := by
  refine ⟨List.mem_of_find?_eq_some h, ?_⟩
  simpa using List.find?_some h

theorem count_pos_of_lookup {db : Store} {i : Int} {s : Student} (h : db.lookup i = some s) :
    db.count i ≠ 0 := by
  have hm := mem_of_lookup h
  have : s ∈ db.rows.filter (fun r => decide (r.Id = i)) := by
    simp [List.mem_filter, hm.1, hm.2]
  have hpos := List.length_pos_of_mem this
  simp only [Store.count]
  omega

theorem find_map_update (rows : List Student) (i : Int) (f : Student → Student)
    (hf : ∀ r, (f r).Id = r.Id) :
    (rows.map (fun r => if r.Id = i then f r else r)).find? (fun r => decide (r.Id = i)) =
      (rows.find? (fun r => decide (r.Id = i))).map f := by
  induction rows with
  | nil => rfl
  | cons r rest ih =>
    by_cases h : r.Id = i
    · simp [List.find?_cons, h, hf]
    · simp [List.find?_cons, h, ih]

theorem patched_id (r p : Student) : (r.patched p).Id = r.Id := rfl

/-- What `ModifyStudentById` does on the single-client table. -/
theorem modifyStudentById_sqlite3 (i : Int) (p : Student) (db : Store) :
    sqliteAdapter.ModifyStudentById i p db =
      match db.lookup i with
      | none => ((Student.zero, some (notFound i)), db)
      | some r =>
        if p.Name = "" ∧ p.Email = "" ∧ p.Age = 0 then ((r, none), db)
        else ((r.patched p, none),
          ⟨db.rows.map (fun x => if x.Id = i then x.patched p else x), db.seq⟩) := by
  unfold Sqlite.ModifyStudentById
  rw [getStudentById_sqlite3]
  cases h : db.lookup i with
  | none => rfl
  | some r =>
    by_cases he : p.Name = "" ∧ p.Email = "" ∧ p.Age = 0
    · simp [setClauseAndArgs, he.1, he.2.1, he.2.2]
    · have hne : p.Name ≠ "" ∨ p.Email ≠ "" ∨ p.Age ≠ 0 := by tauto
      have hlen : (setClauseAndArgs p).1.length ≠ 0 := by
        by_cases h1 : p.Name = "" <;> by_cases h2 : p.Email = "" <;> by_cases h3 : p.Age = 0 <;>
          simp [setClauseAndArgs, h1, h2, h3] at hne ⊢
      simp only [hlen, if_false, he]
      have hp := prepare_updateStatement i p db hne
      have hx := exec_updateStatement i p db
      simp only [hp, hx, count_pos_of_lookup h, if_false]
      rw [getStudentById_sqlite3]
      simp [Store.lookup, find_map_update _ i _ (fun r => patched_id r p)]
      simp [Store.lookup] at h
      simp [h]

/-- What `DeleteStudentById` does on the single-client table. -/
theorem deleteStudentById_sqlite3 (i : Int) (db : Store) :
    sqliteAdapter.DeleteStudentById i db =
      match db.lookup i with
      | none => ((Student.zero, some (notFound i)), db)
      | some r => ((r, none), ⟨db.rows.filter (fun x => decide (x.Id ≠ i)), db.seq⟩) := by
  have hp : sqlite3.Prepare "DELETE FROM students WHERE id = ?" db = .ok Statement.deleteById :=
    rfl
  unfold Sqlite.DeleteStudentById
  rw [getStudentById_sqlite3]
  cases h : db.lookup i with
  | none => rfl
  | some r =>
    simp only [hp]
    simp [sqlite3, Store.delete, count_pos_of_lookup h]

theorem journaled_getStudentById {σ : Type} (d : Driver σ) (i : Int) (st : σ)
    (log : List (String × List Value)) :
    (⟨journaled d⟩ : Sqlite _).GetStudentById i (st, log) = (⟨d⟩ : Sqlite σ).GetStudentById i st := by
  simp only [Sqlite.GetStudentById, journaled]
  cases d.Prepare "SELECT id, name, email, age FROM students WHERE id = ?" st <;> rfl

/-! ## Partial update -/

/-- C1. On a store that holds a student `old` (ids being the primary key), for every patch `p`
the call `ModifyStudentById(old.Id, p)` succeeds and returns a record whose id is `old.Id`
and whose name, email and age are each the patch value when that is non-empty / non-zero and
the stored value otherwise; that record is what the resulting store holds under the id and
what a following `GetStudentById` returns.  The id carried in the patch plays no part. -/
theorem ModifyStudentById_patch_fields (db : Store) (old p : Student)
    (hpk : db.PrimaryKey) (hold : old ∈ db.rows) :
    (sqliteAdapter.ModifyStudentById old.Id p db).1.2 = none ∧
    (sqliteAdapter.ModifyStudentById old.Id p db).1.1.Id = old.Id ∧
    (sqliteAdapter.ModifyStudentById old.Id p db).1.1.Name
      = (if p.Name ≠ "" then p.Name else old.Name) ∧
    (sqliteAdapter.ModifyStudentById old.Id p db).1.1.Email
      = (if p.Email ≠ "" then p.Email else old.Email) ∧
    (sqliteAdapter.ModifyStudentById old.Id p db).1.1.Age
      = (if p.Age ≠ 0 then p.Age else old.Age) ∧
    (sqliteAdapter.ModifyStudentById old.Id p db).1.1
      ∈ (sqliteAdapter.ModifyStudentById old.Id p db).2.rows ∧
    sqliteAdapter.GetStudentById old.Id (sqliteAdapter.ModifyStudentById old.Id p db).2
      = ((sqliteAdapter.ModifyStudentById old.Id p db).1.1, none) ∧
    (∀ pid : Int, (sqliteAdapter.ModifyStudentById old.Id { p with Id := pid } db)
      = sqliteAdapter.ModifyStudentById old.Id p db) := by
  have hl := lookup_of_mem hpk hold
  have hid : ∀ pid : Int, (sqliteAdapter.ModifyStudentById old.Id { p with Id := pid } db)
      = sqliteAdapter.ModifyStudentById old.Id p db := by
    intro pid
    simp only [modifyStudentById_sqlite3, hl, Student.patched]
  by_cases he : p.Name = "" ∧ p.Email = "" ∧ p.Age = 0
  · have hout : sqliteAdapter.ModifyStudentById old.Id p db = ((old, none), db) := by
      rw [modifyStudentById_sqlite3]; simp only [hl, he, and_self, if_true]
    rw [hout]
    refine ⟨rfl, rfl, ?_, ?_, ?_, hold, ?_, by rw [← hout]; exact hid⟩
    · simp [he.1]
    · simp [he.2.1]
    · simp [he.2.2]
    · rw [getStudentById_sqlite3]; simp only [hl]
  · have hout : sqliteAdapter.ModifyStudentById old.Id p db = ((old.patched p, none),
        ⟨db.rows.map (fun x => if x.Id = old.Id then x.patched p else x), db.seq⟩) := by
      rw [modifyStudentById_sqlite3]; simp only [hl, he, if_false]
    rw [hout]
    refine ⟨rfl, rfl, rfl, rfl, rfl, ?_, ?_, by rw [← hout]; exact hid⟩
    · exact List.mem_map.mpr ⟨old, hold, by simp⟩
    · rw [getStudentById_sqlite3]
      have hf := find_map_update db.rows old.Id (fun r => r.patched p) (fun r => patched_id r p)
      simp only [Store.lookup] at hl ⊢
      simp only [hf, hl, Option.map_some']

/-- Patching only the email of Ann in a store of two students. -/
theorem ModifyStudentById_patch_fields_witness :
    twoStudents.PrimaryKey ∧ ann ∈ twoStudents.rows ∧
    (sqliteAdapter.ModifyStudentById ann.Id ⟨99, "", "ann@y.org", 0⟩ twoStudents).1.1.Email
      = "ann@y.org" ∧
    (sqliteAdapter.ModifyStudentById ann.Id ⟨99, "", "ann@y.org", 0⟩ twoStudents).1.1.Name
      = "Ann" :=
  ⟨by decide, by decide,
    (ModifyStudentById_patch_fields twoStudents ann ⟨99, "", "ann@y.org", 0⟩
      (by decide) (by decide)).2.2.2.1,
    (ModifyStudentById_patch_fields twoStudents ann ⟨99, "", "ann@y.org", 0⟩
      (by decide) (by decide)).2.2.1⟩

/-- C2. On a store that holds a student `old`, `ModifyStudentById(old.Id, p)` with an empty
patch `p` (name `""`, email `""`, age `0`, any id) returns `old` with a nil error and leaves
the store as it was; the journal of executed write statements gains no entry.  More generally,
over every driver, once the initial fetch succeeded the result is the fetched record and the
state is untouched, whatever `Prepare` and `Exec` would do. -/
theorem ModifyStudentById_empty_patch (db : Store) (old : Student) (pid : Int)
    (hpk : db.PrimaryKey) (hold : old ∈ db.rows) :
    sqliteAdapter.ModifyStudentById old.Id ⟨pid, "", "", 0⟩ db = ((old, none), db) ∧
    (∀ log : List (String × List Value),
      (⟨journaled sqlite3⟩ : Sqlite _).ModifyStudentById old.Id ⟨pid, "", "", 0⟩ (db, log)
        = ((old, none), (db, log))) ∧
    (∀ (σ : Type) (s : Sqlite σ) (i : Int) (st : σ) (cur : Student),
      s.GetStudentById i st = (cur, none) →
        s.ModifyStudentById i ⟨pid, "", "", 0⟩ st = ((cur, none), st)) := by
  have hgen : ∀ (σ : Type) (s : Sqlite σ) (i : Int) (st : σ) (cur : Student),
      s.GetStudentById i st = (cur, none) →
        s.ModifyStudentById i ⟨pid, "", "", 0⟩ st = ((cur, none), st) := by
    intro σ s i st cur h
    simp [Sqlite.ModifyStudentById, h, setClauseAndArgs]
  have hfetch : sqliteAdapter.GetStudentById old.Id db = (old, none) := by
    rw [getStudentById_sqlite3]; simp only [lookup_of_mem hpk hold]
  refine ⟨hgen _ _ _ _ _ hfetch, ?_, hgen⟩
  intro log
  exact hgen _ _ _ _ _ (by rw [journaled_getStudentById]; exact hfetch)

/-- An empty patch for Bob in a store of two students. -/
theorem ModifyStudentById_empty_patch_witness :
    twoStudents.PrimaryKey ∧ bob ∈ twoStudents.rows ∧
    sqliteAdapter.ModifyStudentById bob.Id ⟨7, "", "", 0⟩ twoStudents
      = ((bob, none), twoStudents) :=
  ⟨by decide, by decide,
    (ModifyStudentById_empty_patch twoStudents bob 7 (by decide) (by decide)).1⟩

/-! ## Reading one student -/

/-- The not-found message does not start like a query error. -/
theorem notFound_message_ne (i : Int) (m : String) :
    (notFound i).Error ≠ "query error: " ++ m := by
  intro h
  have hd := congrArg String.data h
  simp [notFound, Error.Error, String.data_append] at hd

/-- C3. On a store with no row of id `i`, `GetStudentById(i)` returns the zero record together
with the error "no student found with id <i>", which is neither nil nor a "query error: ..."
failure (as a value and by its message).  Conversely a nil error comes only with a row of the
store whose id is `i`, and the record returned is that row. -/
theorem GetStudentById_not_found (db : Store) (i : Int) :
    ((∀ r ∈ db.rows, r.Id ≠ i) →
      sqliteAdapter.GetStudentById i db
        = (Student.zero, some (Error.errorString ("no student found with id " ++ Sprint i))) ∧
      (sqliteAdapter.GetStudentById i db).2 ≠ none ∧
      (∀ err : Error, (sqliteAdapter.GetStudentById i db).2
        ≠ some (Error.wrapError ("query error: " ++ err.Error) err)) ∧
      (∀ err : Error, ∀ m : String, (sqliteAdapter.GetStudentById i db).2 = some err →
        err.Error ≠ "query error: " ++ m)) ∧
    (∀ s : Student, sqliteAdapter.GetStudentById i db = (s, none) → s ∈ db.rows ∧ s.Id = i) := by
  constructor
  · intro h
    have hr : sqliteAdapter.GetStudentById i db = (Student.zero, some (notFound i)) := by
      rw [getStudentById_sqlite3]; simp only [lookup_eq_none h]
    rw [hr]
    refine ⟨rfl, by simp, ?_, ?_⟩
    · intro err; simp [notFound]
    · intro err m he
      simp only [Option.some.injEq] at he
      subst he
      exact notFound_message_ne i m
  · intro s hs
    rw [getStudentById_sqlite3] at hs
    cases hl : db.lookup i with
    | none => simp [hl] at hs
    | some r =>
      simp only [hl, Prod.mk.injEq, and_true] at hs
      subst hs
      exact mem_of_lookup hl

/-- Reading id 7, which the store of two students lacks, and id 2, which it holds. -/
theorem GetStudentById_not_found_witness :
    (∀ r ∈ twoStudents.rows, r.Id ≠ 7) ∧
    sqliteAdapter.GetStudentById 7 twoStudents
      = (Student.zero, some (Error.errorString "no student found with id 7")) ∧
    (bob ∈ twoStudents.rows ∧ bob.Id = 2) :=
  ⟨by decide,
    ((GetStudentById_not_found twoStudents 7).1 (by decide)).1,
    (GetStudentById_not_found twoStudents 2).2 bob (by decide)⟩

/-! ## Deleting -/

/-- C4. On a store that holds a student `s` with id `i` (ids being the primary key),
`DeleteStudentById(i)` returns exactly `s` with a nil error, the resulting store keeps the
rows of other ids and no row of id `i`, and `GetStudentById(i)` on it fails with the not-found
error.  On a store with no row of id `i`, `DeleteStudentById(i)` fails with the not-found
error and the store is as before. -/
theorem DeleteStudentById_snapshot (db : Store) (i : Int) (hpk : db.PrimaryKey) :
    (∀ s ∈ db.rows, s.Id = i →
      (sqliteAdapter.DeleteStudentById i db).1 = (s, none) ∧
      (sqliteAdapter.DeleteStudentById i db).2.rows
        = db.rows.filter (fun r => decide (r.Id ≠ i)) ∧
      sqliteAdapter.GetStudentById i (sqliteAdapter.DeleteStudentById i db).2
        = (Student.zero, some (Error.errorString ("no student found with id " ++ Sprint i)))) ∧
    ((∀ r ∈ db.rows, r.Id ≠ i) →
      sqliteAdapter.DeleteStudentById i db
        = ((Student.zero, some (Error.errorString ("no student found with id " ++ Sprint i))),
            db)) := by
  constructor
  · intro s hs hi
    subst hi
    have hout : sqliteAdapter.DeleteStudentById s.Id db
        = ((s, none), ⟨db.rows.filter (fun x => decide (x.Id ≠ s.Id)), db.seq⟩) := by
      rw [deleteStudentById_sqlite3]; simp only [lookup_of_mem hpk hs]
    rw [hout]
    refine ⟨rfl, rfl, ?_⟩
    rw [getStudentById_sqlite3]
    have hn : (⟨db.rows.filter (fun x => decide (x.Id ≠ s.Id)), db.seq⟩ : Store).lookup s.Id
        = none := by
      apply lookup_eq_none
      intro r hr
      simpa using (List.mem_filter.mp hr).2
    simp only [hn]; rfl
  · intro h
    rw [deleteStudentById_sqlite3]
    simp only [lookup_eq_none h]; rfl

/-- Deleting Ann, and deleting the absent id 7, in a store of two students. -/
theorem DeleteStudentById_snapshot_witness :
    twoStudents.PrimaryKey ∧ ann ∈ twoStudents.rows ∧
    (sqliteAdapter.DeleteStudentById 1 twoStudents).1 = (ann, none) ∧
    (∀ r ∈ twoStudents.rows, r.Id ≠ 7) ∧
    sqliteAdapter.DeleteStudentById 7 twoStudents
      = ((Student.zero, some (Error.errorString "no student found with id 7")), twoStudents) :=
  ⟨by decide, by decide,
    ((DeleteStudentById_snapshot twoStudents 1 (by decide)).1 ann (by decide) (by decide)).1,
    by decide,
    (DeleteStudentById_snapshot twoStudents 7 (by decide)).2 (by decide)⟩

/-! ## Creating -/

theorem seq_le_maxRowid (db : Store) : db.seq ≤ db.maxRowid := by
  obtain ⟨rows, seq⟩ := db
  simp only [Store.maxRowid]
  induction rows with
  | nil => simp
  | cons r rest ih => simp only [List.foldr_cons]; exact le_trans ih (le_max_right _ _)

theorem id_le_maxRowid (db : Store) : ∀ r ∈ db.rows, r.Id ≤ db.maxRowid := by
  obtain ⟨rows, seq⟩ := db
  simp only [Store.maxRowid]
  induction rows with
  | nil => simp
  | cons r rest ih =>
    intro x hx
    simp only [List.foldr_cons]
    rcases List.mem_cons.mp hx with h | h
    · subst h; exact le_max_left _ _
    · exact le_trans (ih x h) (le_max_right _ _)

/-- What `CreateStudent` does on the single-client table. -/
theorem createStudent_sqlite3 (name email : String) (age : Int) (db : Store) :
    sqliteAdapter.CreateStudent name email age db =
      if maxInt64 ≤ db.maxRowid then
        ((0, some (Error.errorString "database or disk is full")), db)
      else
        ((db.maxRowid + 1, none),
          ⟨db.rows ++ [⟨db.maxRowid + 1, name, email, age⟩], db.maxRowid + 1⟩) := by
  have hp : sqlite3.Prepare "INSERT INTO students (name, email, age) VALUES (?, ?, ?)" db =
      .ok Statement.insert := rfl
  unfold Sqlite.CreateStudent
  simp only [hp]
  by_cases h : maxInt64 ≤ db.maxRowid <;> simp [sqlite3, Store.insert, h]

theorem seq_le_run (op : Op) (db : Store) : db.seq ≤ (op.run db).seq := by
  cases op with
  | create name email age =>
    simp only [Op.run, createStudent_sqlite3]
    have := seq_le_maxRowid db
    split <;> simp
    omega
  | modify id patch =>
    simp only [Op.run, modifyStudentById_sqlite3]
    cases db.lookup id with
    | none => simp
    | some r => simp only; split <;> simp
  | delete id =>
    simp only [Op.run, deleteStudentById_sqlite3]
    cases db.lookup id <;> simp

theorem seq_le_runOps (ops : List Op) (db : Store) : db.seq ≤ (runOps ops db).seq := by
  induction ops generalizing db with
  | nil => simp [runOps]
  | cons op rest ih =>
    simp only [runOps, List.foldl_cons] at ih ⊢
    exact le_trans (seq_le_run op db) (ih (op.run db))

/-- C5. When `CreateStudent(name, email, age)` succeeds on a store, the id it returns is
greater than the id of every row of the store (so it was not in use), it is greater than every
id an earlier successful `CreateStudent` returned on that store, whatever creations, updates
and deletions happened in between, and `GetStudentById` with that id on the resulting store
returns the record with this id, name, email and age. -/
theorem CreateStudent_fresh_id (db db1 : Store) (name email : String) (age id : Int)
    (h : sqliteAdapter.CreateStudent name email age db = ((id, none), db1)) :
    (∀ r ∈ db.rows, r.Id < id) ∧
    (∀ r ∈ db.rows, r.Id ≠ id) ∧
    (∀ (db0 db0a : Store) (name0 email0 : String) (age0 id0 : Int) (ops : List Op),
      sqliteAdapter.CreateStudent name0 email0 age0 db0 = ((id0, none), db0a) →
      db = runOps ops db0a → id0 < id) ∧
    sqliteAdapter.GetStudentById id db1 = (⟨id, name, email, age⟩, none) := by
  rw [createStudent_sqlite3] at h
  by_cases hfull : maxInt64 ≤ db.maxRowid
  · simp [hfull] at h
  · simp only [hfull, if_false, Prod.mk.injEq, and_true] at h
    obtain ⟨hid, hdb⟩ := h
    have hlt : ∀ r ∈ db.rows, r.Id < id := by
      intro r hr
      have := id_le_maxRowid db r hr
      omega
    refine ⟨hlt, fun r hr => ne_of_lt (hlt r hr), ?_, ?_⟩
    · intro db0 db0a name0 email0 age0 id0 ops h0 hrun
      rw [createStudent_sqlite3] at h0
      by_cases hfull0 : maxInt64 ≤ db0.maxRowid
      · simp [hfull0] at h0
      · simp only [hfull0, if_false, Prod.mk.injEq, and_true] at h0
        obtain ⟨hid0, hdb0⟩ := h0
        have h1 : db0a.seq = id0 := by rw [← hdb0]; exact hid0
        have h2 := seq_le_runOps ops db0a
        have h3 := seq_le_maxRowid db
        rw [← hrun] at h2
        omega
    · rw [getStudentById_sqlite3, ← hdb]
      have hfind : (⟨db.rows ++ [⟨db.maxRowid + 1, name, email, age⟩], db.maxRowid + 1⟩ :
          Store).lookup id = some ⟨id, name, email, age⟩ := by
        simp only [Store.lookup, List.find?_append]
        have hnone : db.rows.find? (fun r => decide (r.Id = id)) = none := by
          simp only [List.find?_eq_none]
          intro r hr; simpa using ne_of_lt (hlt r hr)
        simp [hnone, hid]
      simp only [hfind]

/-- Creating a third student in a store of two students. -/
theorem CreateStudent_fresh_id_witness :
    sqliteAdapter.CreateStudent "Cy" "cy@x.com" 19 twoStudents
      = ((3, none), ⟨[ann, bob, ⟨3, "Cy", "cy@x.com", 19⟩], 3⟩) ∧
    sqliteAdapter.GetStudentById 3 ⟨[ann, bob, ⟨3, "Cy", "cy@x.com", 19⟩], 3⟩
      = (⟨3, "Cy", "cy@x.com", 19⟩, none) :=
  ⟨by decide,
    (CreateStudent_fresh_id twoStudents ⟨[ann, bob, ⟨3, "Cy", "cy@x.com", 19⟩], 3⟩
      "Cy" "cy@x.com" 19 3 (by decide)).2.2.2⟩

/-! ## Listing -/

theorem scanRows_ok (l acc : List Student) :
    scanRows (l.map Except.ok) acc = (acc ++ l, none) := by
  induction l generalizing acc with
  | nil => simp [scanRows]
  | cons r rest ih => simp [scanRows, ih]

/-- C7. On the table as `New` creates it, and on every store without rows, `GetAllStudents`
returns the empty sequence and a nil error; on every store it returns the rows of the store,
one record per row with the id, name, email and age of the row, and a nil error.  Over every
driver, when the statement prepares, the query succeeds and every `rows.Scan` succeeds, the
result is the sequence of scanned rows and a nil error. -/
theorem GetAllStudents_rows :
    sqliteAdapter.GetAllStudents Store.empty = ([], none) ∧
    (∀ db : Store, db.rows = [] →
      sqliteAdapter.GetAllStudents db = ([], none) ∧
        (sqliteAdapter.GetAllStudents db).1.length = 0) ∧
    (∀ db : Store, sqliteAdapter.GetAllStudents db = (db.rows, none)) ∧
    (∀ (σ : Type) (s : Sqlite σ) (st : σ) (stmt : s.Db.Stmt) (rows : List Student),
      s.Db.Prepare "SELECT id, name, email, age FROM students" st = .ok stmt →
      s.Db.Query stmt st = .ok (rows.map Except.ok) →
      s.GetAllStudents st = (rows, none)) := by
  have hall : ∀ db : Store, sqliteAdapter.GetAllStudents db = (db.rows, none) := by
    intro db
    have hp : sqlite3.Prepare "SELECT id, name, email, age FROM students" db =
        .ok Statement.selectAll := rfl
    unfold Sqlite.GetAllStudents
    simp only [hp]
    simp [sqlite3, scanRows_ok]
  refine ⟨hall _, ?_, hall, ?_⟩
  · intro db h
    rw [hall db, h]
    exact ⟨rfl, rfl⟩
  · intro σ s st stmt rows hp hq
    unfold Sqlite.GetAllStudents
    simp only [hp, hq, scanRows_ok, List.nil_append]

/-- Listing a store of two students and a store without rows. -/
theorem GetAllStudents_rows_witness :
    sqliteAdapter.GetAllStudents twoStudents = ([ann, bob], none) ∧
    sqliteAdapter.GetAllStudents ⟨[], 5⟩ = ([], none) :=
  ⟨GetAllStudents_rows.2.2.1 twoStudents, (GetAllStudents_rows.2.1 ⟨[], 5⟩ rfl).1⟩

/-! ## Update racing with a delete -/

/-- C8. Over every driver: for a patch with at least one field set, if the initial fetch of
`ModifyStudentById(i, p)` succeeds with a record `cur`, the statement prepares, and its
execution reports zero rows affected, then the call returns the zero record (not `cur`)
together with the error "no student found with id: <i>". -/
theorem ModifyStudentById_zero_rows {σ : Type} (s : Sqlite σ) (i : Int) (p cur : Student)
    (st st1 : σ) (stmt : s.Db.Stmt) (res : Result)
    (hne : p.Name ≠ "" ∨ p.Email ≠ "" ∨ p.Age ≠ 0)
    (hfetch : s.GetStudentById i st = (cur, none))
    (hprep : s.Db.Prepare (updateStatement i p).1 st = .ok stmt)
    (hexec : s.Db.Exec stmt (updateStatement i p).2 st = (.ok res, st1))
    (hrows : res.RowsAffected = (0, none)) :
    s.ModifyStudentById i p st
      = ((Student.zero, some (Error.errorString ("no student found with id: " ++ Sprint i))),
          st1) := by
  have hlen : (setClauseAndArgs p).1.length ≠ 0 := by
    by_cases h1 : p.Name = "" <;> by_cases h2 : p.Email = "" <;> by_cases h3 : p.Age = 0 <;>
      simp [setClauseAndArgs, h1, h2, h3] at hne ⊢
  unfold Sqlite.ModifyStudentById
  simp only [hfetch, hlen, if_false]
  simp only [hprep, hexec, hrows, if_true]

/-- Another client deletes Ann after the fetch and before the update of her age. -/
theorem ModifyStudentById_zero_rows_witness :
    (⟨interleaved deleteAnn⟩ : Sqlite Store).GetStudentById 1 twoStudents = (ann, none) ∧
    (⟨interleaved deleteAnn⟩ : Sqlite Store).ModifyStudentById 1 ⟨0, "", "", 22⟩ twoStudents
      = ((Student.zero, some (Error.errorString "no student found with id: 1")),
          ⟨[bob], 2⟩) :=
  ⟨by decide,
    ModifyStudentById_zero_rows (⟨interleaved deleteAnn⟩ : Sqlite Store) 1 ⟨0, "", "", 22⟩ ann
      twoStudents ⟨[bob], 2⟩ (Statement.update [Column.age]) ⟨(2, none), (0, none)⟩
      (by decide) (by decide) rfl rfl rfl⟩

/-! ## The statement of a partial update -/

theorem setClauseAndArgs_eq (p : Student) :
    setClauseAndArgs p
      = ((if p.Name ≠ "" then ["name = ?"] else []) ++
          (if p.Email ≠ "" then ["email = ?"] else []) ++
          (if p.Age ≠ 0 then ["age = ?"] else []),
        (if p.Name ≠ "" then [Value.text p.Name] else []) ++
          (if p.Email ≠ "" then [Value.text p.Email] else []) ++
          (if p.Age ≠ 0 then [Value.int p.Age] else [])) := by
  by_cases h1 : p.Name = "" <;> by_cases h2 : p.Email = "" <;> by_cases h3 : p.Age = 0 <;>
    simp only [setClauseAndArgs, h1, h2, h3, ne_eq, not_true_eq_false, not_false_eq_true,
      if_true, if_false, List.nil_append, List.append_nil, List.cons_append]

theorem setClause_length_ne_zero (p : Student)
    (hne : p.Name ≠ "" ∨ p.Email ≠ "" ∨ p.Age ≠ 0) : (setClauseAndArgs p).1.length ≠ 0 := by
  rw [setClauseAndArgs_eq]
  by_cases h1 : p.Name = "" <;> by_cases h2 : p.Email = "" <;> by_cases h3 : p.Age = 0 <;>
    simp [h1, h2, h3] at hne ⊢

theorem updateStatement_placeholders (i : Int) (p : Student) :
    (updateStatement i p).1.toList.count '?' = (updateStatement i p).2.length := by
  simp only [updateStatement, setClauseAndArgs_eq]
  by_cases h1 : p.Name = "" <;> by_cases h2 : p.Email = "" <;> by_cases h3 : p.Age = 0 <;>
    simp only [h1, h2, h3, ne_eq, not_true_eq_false, not_false_eq_true,
      if_true, if_false, List.nil_append, List.append_nil, List.cons_append] <;> rfl

theorem updateStatement_journaled (i : Int) (p : Student)
    (hne : p.Name ≠ "" ∨ p.Email ≠ "" ∨ p.Age ≠ 0) (db : Store)
    (log : List (String × List Value)) (hex : ∃ r ∈ db.rows, r.Id = i) :
    ((⟨journaled sqlite3⟩ : Sqlite _).ModifyStudentById i p (db, log)).2.2
      = log ++ [updateStatement i p] := by
  obtain ⟨r, hr, hri⟩ := hex
  have hlk : ∃ r0, db.lookup i = some r0 := by
    cases h : db.lookup i with
    | some r0 => exact ⟨r0, rfl⟩
    | none =>
      exfalso
      simp only [Store.lookup, List.find?_eq_none] at h
      simpa [hri] using h r hr
  obtain ⟨r0, hr0⟩ := hlk
  have hfetch : (⟨journaled sqlite3⟩ : Sqlite _).GetStudentById i (db, log) = (r0, none) := by
    rw [journaled_getStudentById]
    have := getStudentById_sqlite3 i db
    simp only [hr0] at this
    exact this
  have hlen := setClause_length_ne_zero p hne
  have hp := prepare_updateStatement i p db hne
  have hx := exec_updateStatement i p db
  unfold Sqlite.ModifyStudentById
  simp only [hfetch, hlen, if_false]
  simp only [journaled, hp, hx, count_pos_of_lookup hr0, if_false]

/-- C10. For every id `i` and every patch `p` with at least one field set, the text
`ModifyStudentById` builds is `UPDATE students SET <c1>, ..., <ck> WHERE id = ?` where
`<c1..ck>` are, in this order, those of `name = ?`, `email = ?`, `age = ?` whose patch field
is non-empty / non-zero; the arguments are the corresponding patch values in the same order,
then `i`; the text has as many `?` as there are arguments; the text is the same for any other
id and any other patch with the same fields set; and on a store that holds a row of id `i`
this text with these arguments is the one write statement the call executes. -/
theorem updateStatement_shape (i : Int) (p : Student)
    (hne : p.Name ≠ "" ∨ p.Email ≠ "" ∨ p.Age ≠ 0) :
    (updateStatement i p).1
      = "UPDATE students SET " ++ ", ".intercalate
          ((if p.Name ≠ "" then ["name = ?"] else []) ++
            (if p.Email ≠ "" then ["email = ?"] else []) ++
            (if p.Age ≠ 0 then ["age = ?"] else [])) ++ " WHERE id = ?" ∧
    List.Sublist
      ((if p.Name ≠ "" then ["name = ?"] else []) ++
        (if p.Email ≠ "" then ["email = ?"] else []) ++
        (if p.Age ≠ 0 then ["age = ?"] else []))
      ["name = ?", "email = ?", "age = ?"] ∧
    (updateStatement i p).2
      = (if p.Name ≠ "" then [Value.text p.Name] else []) ++
          (if p.Email ≠ "" then [Value.text p.Email] else []) ++
          (if p.Age ≠ 0 then [Value.int p.Age] else []) ++ [Value.int i] ∧
    (updateStatement i p).1.toList.count '?' = (updateStatement i p).2.length ∧
    (∀ (j : Int) (q : Student), (q.Name = "" ↔ p.Name = "") → (q.Email = "" ↔ p.Email = "") →
      (q.Age = 0 ↔ p.Age = 0) → (updateStatement j q).1 = (updateStatement i p).1) ∧
    (∀ (db : Store) (log : List (String × List Value)), (∃ r ∈ db.rows, r.Id = i) →
      ((⟨journaled sqlite3⟩ : Sqlite _).ModifyStudentById i p (db, log)).2.2
        = log ++ [updateStatement i p]) := by
  refine ⟨?_, ?_, ?_, updateStatement_placeholders i p, ?_,
    fun db log hex => updateStatement_journaled i p hne db log hex⟩
  · simp only [updateStatement, setClauseAndArgs_eq]
  · by_cases h1 : p.Name = "" <;> by_cases h2 : p.Email = "" <;> by_cases h3 : p.Age = 0 <;>
      simp [h1, h2, h3]
  · simp only [updateStatement, setClauseAndArgs_eq]
  · intro j q hn he ha
    simp only [updateStatement, setClauseAndArgs_eq, ne_eq, hn, he, ha]

/-- The statement for a patch of name and age. -/
theorem updateStatement_shape_witness :
    updateStatement 5 ⟨0, "Ann", "", 22⟩
      = ("UPDATE students SET name = ?, age = ? WHERE id = ?",
          [Value.text "Ann", Value.int 22, Value.int 5]) ∧
    (updateStatement 5 ⟨0, "Ann", "", 22⟩).1.toList.count '?'
      = (updateStatement 5 ⟨0, "Ann", "", 22⟩).2.length ∧
    (updateStatement 9 ⟨0, "x = 1; --", "", 1⟩).1 = (updateStatement 5 ⟨0, "Ann", "", 22⟩).1 :=
  ⟨by decide,
    (updateStatement_shape 5 ⟨0, "Ann", "", 22⟩ (by decide)).2.2.2.1,
    (updateStatement_shape 5 ⟨0, "Ann", "", 22⟩ (by decide)).2.2.2.2.1 9 ⟨0, "x = 1; --", "", 1⟩
      (by decide) (by decide) (by decide)⟩

/-! ## Handlers -/

/-- C9. When the JSON decoder of the create handler returns `io.EOF` (empty body), the handler
writes status 400 with the error envelope of the message "empty body".  This holds for every
storage, every validation and every state, and the state after the request is the state
before it: neither the validation nor `storage.CreateStudent` has any part in the outcome. -/
theorem New_empty_body {σ : Type} (storage : Storage σ) (validate : Validation)
    (pathValue : String) (student : Student) (db : σ) :
    handlers.New storage validate ⟨pathValue, (student, some Error.EOF)⟩ db
      = (⟨400, Payload.response ⟨"Error", "empty body"⟩⟩, db) ∧
    handlers.New storage validate ⟨pathValue, (student, some Error.EOF)⟩ db
      = (WriteJson StatusBadRequest
          (Payload.response (GeneralError (Error.errorString "empty body"))), db) := by
  constructor <;> rfl

/-- What each handler writes when its storage call returns an error `err`: status 500 with
the envelope in `GetById`, status 500 with `err` itself in the other four. -/
theorem handlers_storage_error {σ : Type} (storage : Storage σ) (validate : Validation)
    (r : Request) (db db1 : σ) (err : Error) :
    (∀ (student : Student) (x : Int), r.Decode = (student, none) →
      validate.Struct student = none →
      storage.CreateStudent student.Name student.Email student.Age db = ((x, some err), db1) →
      handlers.New storage validate r db = (⟨500, Payload.error err⟩, db1)) ∧
    (∀ (intId : Int) (x : Student), ParseInt r.PathValue = (intId, none) →
      storage.GetStudentById intId db = ((x, some err), db1) →
      handlers.GetById storage r db = (⟨500, Payload.response (GeneralError err)⟩, db1)) ∧
    (∀ x : List Student, storage.GetAllStudents db = ((x, some err), db1) →
      handlers.GetStudentLists storage r db = (⟨500, Payload.error err⟩, db1)) ∧
    (∀ (intId : Int) (modifyStudent x : Student), ParseInt r.PathValue = (intId, none) →
      r.Decode = (modifyStudent, none) →
      storage.ModifyStudentById intId modifyStudent db = ((x, some err), db1) →
      handlers.ModifyById storage r db = (⟨500, Payload.error err⟩, db1)) ∧
    (∀ (intId : Int) (x : Student), ParseInt r.PathValue = (intId, none) →
      storage.DeleteStudentById intId db = ((x, some err), db1) →
      handlers.DeleteById storage r db = (⟨500, Payload.error err⟩, db1)) := by
  refine ⟨?_, ?_, ?_, ?_, ?_⟩
  · intro student x hd hv hs
    simp only [handlers.New, hd, hv, hs]; rfl
  · intro intId x hp hs
    simp only [handlers.GetById, hp, hs]; rfl
  · intro x hs
    simp only [handlers.GetStudentLists, hs]; rfl
  · intro intId modifyStudent x hp hd hs
    simp only [handlers.ModifyById, hp, hd, hs]; rfl
  · intro intId x hp hs
    simp only [handlers.DeleteById, hp, hs]; rfl

/-- C6 (what the code does). `DELETE /api/students/7` and `PATCH /api/students/7` with
`{"age": 22}` on a store without student 7, `GET /api/students` and `POST /api/students` on an
unreachable database: each handler answers 500 and gives the storage error itself to the
JSON encoder, which is not the envelope `response.GeneralError(err)`.  `GET /api/students/7`
on the same store answers 500 with the envelope. -/
theorem storage_error_not_enveloped :
    handlers.DeleteById sqliteAdapter.toStorage ⟨"7", (Student.zero, none)⟩ twoStudents
      = (⟨500, Payload.error (Error.errorString "no student found with id 7")⟩, twoStudents) ∧
    handlers.ModifyById sqliteAdapter.toStorage ⟨"7", (⟨0, "", "", 22⟩, none)⟩ twoStudents
      = (⟨500, Payload.error (Error.errorString "no student found with id 7")⟩, twoStudents) ∧
    handlers.GetStudentLists (⟨failing cannotOpen⟩ : Sqlite Unit).toStorage
        ⟨"", (Student.zero, none)⟩ ()
      = (⟨500, Payload.error cannotOpen⟩, ()) ∧
    handlers.New (⟨failing cannotOpen⟩ : Sqlite Unit).toStorage acceptAll
        ⟨"", (⟨0, "Ann", "ann@x.com", 21⟩, none)⟩ ()
      = (⟨500, Payload.error cannotOpen⟩, ()) ∧
    handlers.GetById sqliteAdapter.toStorage ⟨"7", (Student.zero, none)⟩ twoStudents
      = (⟨500, Payload.response ⟨"Error", "no student found with id 7"⟩⟩, twoStudents) ∧
    (∀ err : Error, Payload.error err ≠ Payload.response (GeneralError err)) := by
  refine ⟨by decide, by decide, by decide, by decide, by decide, ?_⟩
  intro err h
  cases h

end StudentsApi
